import Mathlib

/-!
Shallow embedding of the calendar-assistant server (`server.js`).

Modelling conventions, used consistently below:

* Calendar dates (`YYYY-MM-DD` strings in the source) are modelled as day
  indices (`Nat`); times (`HH:MM` strings) as minutes within the day
  (`Nat`, intended `< 1440`).  For well-formed fixed-width ISO strings,
  string equality and lexicographic string comparison (used by the
  MongoDB sort `{date: 1, time: 1}`) agree with numeric equality and
  comparison on these denotations, and the JavaScript
  `new Date(date + "T" + time + ":00")` denotes the absolute minute
  `date * 1440 + time`; `now.toISOString().split("T")[0]` denotes
  `now / 1440` for `now` in absolute minutes.
* Mongo `ObjectId`s are modelled as `Nat`; `insertOne` assigns fresh ids
  from a counter.  `new ObjectId(s)` succeeds exactly on 24-character hex
  strings; `parseObjectId` below mirrors that.
* JSON serialisation (`JSON.stringify` / `JSON.parse`) is not modelled:
  each function returns its payload as a structure.
* External calls that can throw are given a `Bool` oracle saying whether
  the call succeeds; a `try/catch` in the source appears as a definition
  that maps the failure to a normal value, while a handler whose body has
  no `try/catch` is modelled as `Except`-valued, failures propagating.
* The `createdAt`/`updatedAt` bookkeeping fields are omitted; no code in
  the repository reads them.
-/

namespace CalendarAssistant

/-- Google OAuth token sets are opaque to the server; modelled as `Nat`. -/
abbrev Tokens := Nat

/-- A document of the `appointments` collection, as built by
`scheduleAppointment` in `server.js`. -/
structure Appointment where
  _id : Nat
  userId : String
  title : String
  date : Nat
  time : Nat
  description : String
  reminded : Bool
  googleEventId : Option Nat := none
  deriving Repr, DecidableEq

/-- A Google Calendar event as inserted by `scheduleToGoogleCalendar`
(`calendar.events.insert`): summary, description and the start and end
instants (in absolute minutes). -/
structure GCalEvent where
  eventId : Nat
  summary : String
  details : String
  startMin : Nat
  endMin : Nat
  deriving Repr, DecidableEq

/-- The server state: the `appointments` and `users` MongoDB collections
and the external Google Calendar, plus fresh-id counters. -/
structure DB where
  appointments : List Appointment
  users : List (String × Tokens)
  gcal : List GCalEvent
  nextApptId : Nat := 0
  nextEventId : Nat := 0
  deriving Repr, DecidableEq

/-- Value of a hex digit, or `none`; `ObjectId` hex is case-insensitive. -/
def hexDigitVal (c : Char) : Option Nat :=
  if '0' ≤ c ∧ c ≤ '9' then some (c.toNat - '0'.toNat)
  else if 'a' ≤ c ∧ c ≤ 'f' then some (c.toNat - 'a'.toNat + 10)
  else if 'A' ≤ c ∧ c ≤ 'F' then some (c.toNat - 'A'.toNat + 10)
  else none

/-- Model of `new ObjectId(s)`: succeeds exactly on 24-character hex
strings, and returns the denoted id; on any other string it throws, which
the caller catches (`deleteAppointment`), modelled as `none`. -/
def parseObjectId (s : String) : Option Nat :=
  if s.length = 24 ∧ s.toList.all (fun c => (hexDigitVal c).isSome) then
    some (s.toList.foldl (fun n c => n * 16 + ((hexDigitVal c).getD 0)) 0)
  else none

/-- Lower-cased character sequence of a string (the `i` regex flag). -/
def lowerList (s : String) : List Char := s.toList.map Char.toLower

/-- Does `p` occur at the start of `s`? (helper for the regex model). -/
def leadsWith : List Char → List Char → Bool
  | [], _ => true
  | _ :: _, [] => false
  | c :: p, d :: s => c == d && leadsWith p s

/-- Does `p` occur contiguously anywhere inside `s`? -/
def occursIn (p : List Char) : List Char → Bool
  | [] => leadsWith p []
  | d :: s => leadsWith p (d :: s) || occursIn p s

/-- Model of the Mongo query `title: with $regex identifier and the i option`
for metacharacter-free `identifier`: an unanchored case-insensitive
substring test of `identifier` against `title`. -/
def regexTest (identifier title : String) : Bool :=
  occursIn (lowerList identifier) (lowerList title)

/-- Model of `usersCollection.findOne` on the userId followed by
`user?.tokens || null`: first entry of the `users` collection with the
given key. -/
def lookupTokens : List (String × Tokens) → String → Option Tokens
  | [], _ => none
  | (u, t) :: rest, userId => if u = userId then some t else lookupTokens rest userId

/-- `getUserTokens` from `server.js`. -/
def getUserTokens (db : DB) (userId : String) : Option Tokens :=
  lookupTokens db.users userId

/-- Model of `updateOne` with $set and upsert true:
replace the first entry with the key, or append a new one. -/
def upsertTokens : List (String × Tokens) → String → Tokens → List (String × Tokens)
  | [], userId, tokens => [(userId, tokens)]
  | (u, t) :: rest, userId, tokens =>
      if u = userId then (userId, tokens) :: rest
      else (u, t) :: upsertTokens rest userId tokens

/-- `saveUserTokens` from `server.js`. -/
def saveUserTokens (db : DB) (userId : String) (tokens : Tokens) : DB :=
  { db with users := upsertTokens db.users userId tokens }

/-- Return value of `scheduleToGoogleCalendar`. -/
structure GCalResult where
  success : Bool
  googleEventId : Option Nat := none
  htmlLink : Option String := none
  message : Option String := none
  deriving Repr, DecidableEq

/-- `scheduleToGoogleCalendar` from `server.js`.  `insertOk` is the oracle
for whether the `calendar.events.insert` call succeeds; the body is inside
`try/catch`, so a failing insert yields a `success := false` value rather
than an exception.  Without stored tokens the function returns the
not-authenticated value without touching the calendar. -/
def scheduleToGoogleCalendar (insertOk : Bool) (db : DB) (userId title : String)
    (date time : Nat) (description : String) : DB × GCalResult :=
  match getUserTokens db userId with
  | none => (db, { success := false, message := some "Not authenticated with Google Calendar" })
  | some _ =>
      if insertOk then
        let startDateTime := date * 1440 + time
        let endDateTime := startDateTime + 60
        let event : GCalEvent :=
          { eventId := db.nextEventId, summary := title, details := description,
            startMin := startDateTime, endMin := endDateTime }
        ({ db with gcal := db.gcal ++ [event], nextEventId := db.nextEventId + 1 },
         { success := true, googleEventId := some event.eventId,
           htmlLink := some "htmlLink" })
      else
        (db, { success := false, message := some "Google Calendar error" })

/-- The appointment summary embedded in a schedule result. -/
structure ApptView where
  id : Nat
  title : String
  date : Nat
  time : Nat
  deriving Repr, DecidableEq

/-- Return value of `scheduleAppointment`. -/
structure ScheduleResult where
  success : Bool
  message : String
  appointment : ApptView
  googleCalendarLink : Option String
  deriving Repr, DecidableEq

/-- `scheduleAppointment` from `server.js`: build the document with
`reminded := false`, attempt the Google Calendar mirror, attach the event
id when that succeeded, insert into the `appointments` collection
(`insertOne` assigns the fresh `_id`), and return the success payload. -/
def scheduleAppointment (insertOk : Bool) (db : DB) (userId title : String)
    (date time : Nat) (description : String := "") : DB × ScheduleResult :=
  let (db1, gcalResult) := scheduleToGoogleCalendar insertOk db userId title date time description
  let appointment : Appointment :=
    { _id := db1.nextApptId, userId := userId, title := title, date := date,
      time := time, description := description, reminded := false,
      googleEventId := if gcalResult.success then gcalResult.googleEventId else none }
  let db2 := { db1 with
    appointments := db1.appointments ++ [appointment],
    nextApptId := db1.nextApptId + 1 }
  (db2,
   { success := true,
     message := if gcalResult.success then
         "scheduled and added to Google Calendar"
       else "scheduled (local only - connect Google Calendar to sync)",
     appointment := { id := appointment._id, title := title, date := date, time := time },
     googleCalendarLink := gcalResult.htmlLink })

/-- The MongoDB sort key on date ascending then time ascending: ascending by date, ties
broken ascending by time. -/
def apptKeyLe (a b : Appointment) : Prop :=
  a.date < b.date ∨ (a.date = b.date ∧ a.time ≤ b.time)

instance : DecidableRel apptKeyLe := fun a b => by unfold apptKeyLe; infer_instance

instance : IsTotal Appointment apptKeyLe := ⟨by intro a b; unfold apptKeyLe; omega⟩

instance : IsTrans Appointment apptKeyLe := ⟨by intro a b c; unfold apptKeyLe; omega⟩

/-- The Mongo query object of `getAppointments`: the userId plus, when a
date was supplied, the date. -/
def matchesQuery (userId : String) (date : Option Nat) (a : Appointment) : Bool :=
  a.userId == userId && (match date with | some d => a.date == d | none => true)

/-- The list produced by `find(query).sort(date, time).toArray()`:
the matching documents, sorted ascending by date then time. -/
def getAppointmentsList (db : DB) (userId : String) (date : Option Nat) : List Appointment :=
  List.insertionSort apptKeyLe (db.appointments.filter (matchesQuery userId date))

/-- The per-appointment projection in the `getAppointments` payload. -/
structure GetApptView where
  id : Nat
  title : String
  date : Nat
  time : Nat
  description : String
  deriving Repr, DecidableEq

/-- Return value of `getAppointments`. -/
structure GetResult where
  success : Bool
  count : Nat
  appointments : List GetApptView
  deriving Repr, DecidableEq

/-- `getAppointments` from `server.js`; the collection is only read. -/
def getAppointments (db : DB) (userId : String) (date : Option Nat := none) :
    DB × GetResult :=
  let appts := getAppointmentsList db userId date
  (db,
   { success := true, count := appts.length,
     appointments := appts.map (fun a =>
       { id := a._id, title := a.title, date := a.date, time := a.time,
         description := a.description }) })

/-- Return value of `deleteAppointment`; `appointment` holds the id and
title of the deleted document on success. -/
structure DeleteResult where
  success : Bool
  message : String
  appointment : Option (Nat × String) := none
  deriving Repr, DecidableEq

/-- The lookup of `deleteAppointment`: first `findOne` by parsed
`ObjectId` and `userId` (skipped when parsing throws), then, if nothing
was found, `findOne` by `userId` and the case-insensitive title regex. -/
def findByIdOrTitle (db : DB) (userId identifier : String) : Option Appointment :=
  let byId := match parseObjectId identifier with
    | some oid => db.appointments.find? (fun a => a.userId == userId && a._id == oid)
    | none => none
  match byId with
  | some a => some a
  | none => db.appointments.find? (fun a => a.userId == userId && regexTest identifier a.title)

/-- `deleteAppointment` from `server.js`: look up by id then title; when
found, delete the mirrored Google Calendar event if the document carries
one and tokens exist (errors there are caught and ignored), `deleteOne`
the document, and return the success payload; otherwise return the
not-found payload. -/
def deleteAppointment (db : DB) (userId identifier : String) : DB × DeleteResult :=
  match findByIdOrTitle db userId identifier with
  | some appointment =>
      let db1 := match appointment.googleEventId, getUserTokens db userId with
        | some eid, some _ =>
            { db with gcal := db.gcal.filter (fun e => e.eventId != eid) }
        | _, _ => db
      let db2 := { db1 with
        appointments := db1.appointments.eraseP (fun a => a._id == appointment._id) }
      (db2,
       { success := true, message := "Deleted appointment",
         appointment := some (appointment._id, appointment.title) })
  | none =>
      (db, { success := false,
             message := "Appointment not found. Please check the list of appointments and use the correct ID or title." })

/-- The `args` object carried by a Gemini function call; absent properties
are `none` (JavaScript `undefined`). -/
structure FnArgs where
  title : Option String := none
  date : Option Nat := none
  time : Option Nat := none
  description : Option String := none
  identifier : Option String := none
  deriving Repr, DecidableEq

/-- A Gemini function call: a name and arguments. -/
structure FunctionCall where
  name : String
  args : FnArgs
  deriving Repr, DecidableEq

/-- The serialised payload `executeFunction` returns: one constructor per
local function, plus the unknown-function error object, whose `error`
property is the carried string. -/
inductive FnResult where
  | scheduled (r : ScheduleResult)
  | listed (r : GetResult)
  | deleted (r : DeleteResult)
  | unknownFunction (error : String)
  deriving Repr, DecidableEq

/-- `executeFunction` from `server.js`: dispatch on the call name to the
three local functions, passing the carried arguments (the declarations
mark `title`, `date`, `time` and `identifier` required; the `getD`
defaults only fill arguments a conforming model never omits, and
`description` defaults to the empty string exactly as in the source);
any other name returns the `Unknown function` error object and leaves the
state untouched. -/
def executeFunction (insertOk : Bool) (db : DB) (userId : String) (fc : FunctionCall) :
    DB × FnResult :=
  match fc.name with
  | "scheduleAppointment" =>
      let (db1, r) := scheduleAppointment insertOk db userId (fc.args.title.getD "")
        (fc.args.date.getD 0) (fc.args.time.getD 0) (fc.args.description.getD "")
      (db1, FnResult.scheduled r)
  | "getAppointments" =>
      let (db1, r) := getAppointments db userId fc.args.date
      (db1, FnResult.listed r)
  | "deleteAppointment" =>
      let (db1, r) := deleteAppointment db userId (fc.args.identifier.getD "")
      (db1, FnResult.deleted r)
  | _ => (db, FnResult.unknownFunction "Unknown function")

/-- A response of the Gemini chat model: `response.functionCalls()`
(`undefined`, i.e. `none`, when the model issued no function calls) and
`response.text()`. -/
structure ModelResponse where
  functionCalls : Option (List FunctionCall)
  text : String
  deriving Repr, DecidableEq

/-- A message the chat loop sends back to the model: the array passed to
`chat.sendMessage`, whose single element wraps a named function
response. -/
inductive SentMessage where
  | functionResponseMsg (payload : List (String × FnResult))
  deriving Repr, DecidableEq

/-- Model of `Promise.all(functionCalls.map(...))` in the `/chat` loop:
every call of the turn is executed through `executeFunction` (state
effects taken in array order) and the named responses are collected in
order. -/
def execCalls (insertOk : Bool) (userId : String) :
    DB → List FunctionCall → DB × List (String × FnResult)
  | db, [] => (db, [])
  | db, fc :: rest =>
      let (db1, r) := executeFunction insertOk db userId fc
      let (db2, rs) := execCalls insertOk userId db1 rest
      (db2, (fc.name, r) :: rs)

/-- The `while (response.functionCalls())` loop of the `/chat` handler.
The model itself is an oracle: `script` lists the responses it returns to
the successive `sendMessage` calls after the current one.  While the
current response carries function calls, all of them are executed, but
the message sent back to the model wraps only `functionResponses[0]`
(hence `take 1`); the loop ends when a response carries no calls, and its
`text` is returned.  An exhausted script (a situation the real model
never presents) ends the run with no final text. -/
def chatLoop (insertOk : Bool) (userId : String) :
    List ModelResponse → DB → ModelResponse → DB × List SentMessage × Option String
  | script, db, resp =>
      match resp.functionCalls with
      | none => (db, [], some resp.text)
      | some calls =>
          let (db1, functionResponses) := execCalls insertOk userId db calls
          let sent := SentMessage.functionResponseMsg (functionResponses.take 1)
          match script with
          | [] => (db1, [sent], none)
          | next :: rest =>
              let (db2, msgs, t) := chatLoop insertOk userId rest db1 next
              (db2, sent :: msgs, t)

/-- Errors thrown by failing external-service calls. -/
abbrev ExtError := String

/-- Body of the `/chat` 200 response. -/
structure ChatOk where
  response : String
  appointments : Nat
  googleConnected : Bool
  deriving Repr, DecidableEq

/-- An HTTP response of the `/chat` endpoint: a 200 payload or the 500
error produced by the handler's `catch` block. -/
inductive ChatHttpResponse where
  | ok (body : ChatOk)
  | internalError (details : String)
  deriving Repr, DecidableEq

/-- The `userId` resolution of the `/chat` handler: the destructuring
default applies when the request body carries no `userId`. -/
def chatRequestUserId (bodyUserId : Option String) : String :=
  bodyUserId.getD "default_user"

/-- The `userId` resolution of the GET `/appointments` handler:
`req.query.userId || default_user`, so an absent (or empty, i.e. falsy)
query value falls back to the shared id. -/
def appointmentsRequestUserId (queryUserId : Option String) : String :=
  match queryUserId with
  | some s => if s = "" then "default_user" else s
  | none => "default_user"

/-- The body of the `/chat` handler (everything inside its `try`):
`modelOk` is the oracle for the generative-AI call, `countOk` for the
`countDocuments` call.  A failure anywhere in the body is an uncaught
exception of the body, paired with the state as mutated so far. -/
def chatBody (modelOk countOk insertOk : Bool) (db : DB) (userId : String)
    (firstResp : ModelResponse) (script : List ModelResponse) :
    DB × Except ExtError ChatOk :=
  if modelOk = false then (db, Except.error "generative-AI call failed")
  else
    let (db1, _sent, text) := chatLoop insertOk userId script db firstResp
    if countOk = false then (db1, Except.error "document-store count failed")
    else
      (db1, Except.ok
        { response := text.getD "",
          appointments := (db1.appointments.filter (fun a => a.userId == userId)).length,
          googleConnected := (getUserTokens db1 userId).isSome })

/-- The `/chat` handler: the whole body sits in `try/catch`, so every
failure of `chatBody` is mapped to the 500 response and none escapes. -/
def chatHandler (modelOk countOk insertOk : Bool) (db : DB) (bodyUserId : Option String)
    (firstResp : ModelResponse) (script : List ModelResponse) :
    DB × ChatHttpResponse :=
  let userId := chatRequestUserId bodyUserId
  match chatBody modelOk countOk insertOk db userId firstResp script with
  | (db1, Except.ok body) => (db1, ChatHttpResponse.ok body)
  | (db1, Except.error e) => (db1, ChatHttpResponse.internalError e)

/-- Body of the GET `/appointments` 200 response: the full documents (the
source spreads each document and adds its id string) and the
Google-connection flag. -/
structure ApptsResponse where
  appointments : List Appointment
  googleConnected : Bool
  deriving Repr, DecidableEq

/-- The GET `/appointments` handler.  Its body has no `try/catch`:
`findOk` is the oracle for the `find` call and `tokensOk` for the
`findOne` behind `getUserTokens`; a failing call escapes the handler as
an exception (`Except.error`). -/
def appointmentsHandler (findOk tokensOk : Bool) (db : DB)
    (queryUserId : Option String) : Except ExtError ApptsResponse :=
  let userId := appointmentsRequestUserId queryUserId
  if findOk = false then Except.error "document-store find failed"
  else
    let appointments := getAppointmentsList db userId none
    if tokensOk = false then Except.error "document-store findOne failed"
    else
      Except.ok { appointments := appointments,
                  googleConnected := (getUserTokens db userId).isSome }

/-- Redirect issued by the `/oauth2callback` handler. -/
inductive OAuthRedirect where
  | connected
  | authFailed
  deriving Repr, DecidableEq

/-- The `/oauth2callback` handler: exchange the code for tokens
(`tokenOk` is the oracle for `oauth2Client.getToken`; its failure is
caught and turned into the error redirect) and store them under the fixed
id `default_user` - the `googleAccount` that completed the authorization
is never consulted.  The obtained token set is determined by the
authorization code. -/
def oauth2callback (tokenOk : Bool) (db : DB) (googleAccount : String) (code : Nat) :
    DB × OAuthRedirect :=
  if tokenOk = false then (db, OAuthRedirect.authFailed)
  else
    let tokens : Tokens := code
    let userId := "default_user"
    (saveUserTokens db userId tokens, OAuthRedirect.connected)

/-- A parameter entry of a function declaration's `properties` object. -/
structure ParamProperty where
  pname : String
  ptype : String
  pdescription : String
  deriving Repr, DecidableEq

/-- A Gemini function declaration: name, description, parameter
properties and the list of required parameter names. -/
structure FunctionDeclaration where
  name : String
  description : String
  properties : List ParamProperty
  required : List String
  deriving Repr, DecidableEq

/-- The `functionDeclarations` array of `server.js`, verbatim. -/
def functionDeclarations : List FunctionDeclaration := [
  { name := "scheduleAppointment",
    description := "Schedule a new appointment or meeting",
    properties := [
      { pname := "title", ptype := "string",
        pdescription := "The title or name of the appointment" },
      { pname := "date", ptype := "string",
        pdescription := "Date in YYYY-MM-DD format" },
      { pname := "time", ptype := "string",
        pdescription := "Time in HH:MM format (24-hour)" },
      { pname := "description", ptype := "string",
        pdescription := "Additional details about the appointment" }],
    required := ["title", "date", "time"] },
  { name := "getAppointments",
    description := "Retrieve appointments. Always show the ID, title, date and time for each appointment.",
    properties := [
      { pname := "date", ptype := "string",
        pdescription := "Optional: specific date in YYYY-MM-DD format" }],
    required := [] },
  { name := "deleteAppointment",
    description := "Delete an appointment by its title or ID",
    properties := [
      { pname := "identifier", ptype := "string",
        pdescription := "The appointment title or ID to delete" }],
    required := ["identifier"] }]

/-- The model configuration every `/chat` request builds:
`getGenerativeModel` with the model name and the tools array wrapping
`functionDeclarations`. -/
structure ModelConfig where
  model : String
  tools : List (List FunctionDeclaration)
  deriving Repr, DecidableEq

/-- The configuration passed to `genAI.getGenerativeModel` in `/chat`. -/
def chatModelConfig : ModelConfig :=
  { model := "gemini-2.5-flash", tools := [functionDeclarations] }

/-- Start instant of an appointment in absolute minutes: the denotation
of `new Date(apt.date + "T" + apt.time + ":00")`. -/
def apptStart (a : Appointment) : Nat := a.date * 1440 + a.time

/-- Day of the scan instant: denotation of
`now.toISOString().split("T")[0]`. -/
def isoDate (now : Nat) : Nat := now / 1440

/-- The Mongo query of the cron callback: documents with `reminded` false
whose `date` equals the current day. -/
def needsReminderQuery (db : DB) (now : Nat) : List Appointment :=
  db.appointments.filter (fun a => a.reminded == false && a.date == isoDate now)

/-- The window test of the cron callback:
`aptDateTime >= fifteenMinutesFromNow && aptDateTime < sixteenMinutesFromNow`. -/
def inReminderWindow (now : Nat) (a : Appointment) : Bool :=
  decide (now + 15 ≤ apptStart a) && decide (apptStart a < now + 16)

/-- Model of `updateOne` on an id with `$set reminded := true`: the
collection carries unique `_id`s, so setting the flag on every document
with the id coincides with `updateOne`. -/
def markReminded (appts : List Appointment) (i : Nat) : List Appointment :=
  appts.map (fun a => if a._id == i then { a with reminded := true } else a)

/-- One run of the cron callback at instant `now`: query the unreminded
documents dated today, emit a console reminder for each of them inside
the window, and mark each emitted one as reminded.  Returns the updated
state and the emitted appointments (the snapshot the loop iterates
over). -/
def scanStep (db : DB) (now : Nat) : DB × List Appointment :=
  let pending := needsReminderQuery db now
  let toRemind := pending.filter (inReminderWindow now)
  let appts1 := toRemind.foldl (fun acc a => markReminded acc a._id) db.appointments
  ({ db with appointments := appts1 }, toRemind)

/-- Iterated cron runs at the given instants; yields the per-run lists of
emitted appointment ids. -/
def runScans (db : DB) : List Nat → List (List Nat)
  | [] => []
  | t :: ts =>
      let (db1, emitted) := scanStep db t
      emitted.map (fun a => a._id) :: runScans db1 ts

/-- Total number of reminders emitted for id `i` across a list of runs. -/
def countEmitted (i : Nat) (trace : List (List Nat)) : Nat :=
  (trace.map (fun l => l.count i)).sum

/-- The cron callback as a handler: its body has no `try/catch`, so a
failing `find` (`findOk` oracle) or, when there are documents to mark, a
failing `updateOne` (`updateOk` oracle) escapes as an exception. -/
def cronHandler (findOk updateOk : Bool) (db : DB) (now : Nat) :
    Except ExtError (DB × List Appointment) :=
  if findOk = false then Except.error "document-store find failed"
  else
    let (db1, emitted) := scanStep db now
    if updateOk = false && !emitted.isEmpty then
      Except.error "document-store update failed"
    else Except.ok (db1, emitted)

/-! Concrete states and inputs used by counterexamples and witnesses. -/

/-- The empty server state. -/
def emptyDb : DB := { appointments := [], users := [], gcal := [] }

/-- A state whose single user has stored Google tokens. -/
def tokenDb : DB := { appointments := [], users := [("default_user", 5)], gcal := [] }

/-- An appointment in the first quarter hour of day 1 (00:05). -/
def earlyAppt : Appointment :=
  { _id := 0, userId := "default_user", title := "Early standup", date := 1, time := 5,
    description := "", reminded := false }

/-- A state holding only `earlyAppt`. -/
def earlyDb : DB :=
  { appointments := [earlyAppt], users := [], gcal := [], nextApptId := 1 }

/-- A mid-day appointment on day 0 (10:00). -/
def middayAppt : Appointment :=
  { _id := 3, userId := "default_user", title := "Review", date := 0, time := 600,
    description := "", reminded := false }

/-- A state holding only `middayAppt`. -/
def middayDb : DB :=
  { appointments := [middayAppt], users := [], gcal := [], nextApptId := 4 }

/-- An appointment titled Team Meeting, owned by user u. -/
def meetingAppt : Appointment :=
  { _id := 7, userId := "u", title := "Team Meeting", date := 100, time := 540,
    description := "", reminded := false }

/-- A state holding only `meetingAppt`. -/
def meetingDb : DB :=
  { appointments := [meetingAppt], users := [], gcal := [], nextApptId := 8 }

/-- A schedule tool call for an appointment titled A. -/
def fcA : FunctionCall :=
  { name := "scheduleAppointment",
    args := { title := some "A", date := some 10, time := some 60 } }

/-- A schedule tool call for an appointment titled B. -/
def fcB : FunctionCall :=
  { name := "scheduleAppointment",
    args := { title := some "B", date := some 11, time := some 61 } }

/-- A model response carrying two function calls in one turn. -/
def twoCallResp : ModelResponse := { functionCalls := some [fcA, fcB], text := "" }

/-- A model response carrying no function calls. -/
def doneResp : ModelResponse := { functionCalls := none, text := "All set" }

/-! Helper lemmas. -/

/-- Lookup after an upsert: the upserted key now maps to the new tokens,
every other key is unaffected. -/
theorem lookupTokens_upsertTokens (l : List (String × Tokens)) (uid u : String) (tk : Tokens) :
    lookupTokens (upsertTokens l uid tk) u =
      if u = uid then some tk else lookupTokens l u := by
  induction l with
  | nil =>
      by_cases h : u = uid
      · subst h; simp [upsertTokens, lookupTokens]
      · have h' : ¬uid = u := fun hh => h hh.symm
        simp [upsertTokens, lookupTokens, h, h']
  | cons head rest ih =>
      obtain ⟨v, t⟩ := head
      by_cases hv : v = uid
      · subst hv
        by_cases hu : u = v
        · subst hu; simp [upsertTokens, lookupTokens]
        · have h' : ¬v = u := fun hh => hu hh.symm
          simp [upsertTokens, lookupTokens, hu, h']
      · by_cases hu : u = v
        · subst hu
          simp [upsertTokens, lookupTokens, hv]
        · have h' : ¬v = u := fun hh => hu hh.symm
          simp [upsertTokens, lookupTokens, hv, hu, h', ih]

/-! Claim C10. -/

/-- C10: every `/chat` request configures the model with exactly three
function declarations: `scheduleAppointment` with required parameters
`title`, `date` and `time`; `getAppointments` with a single optional
`date` parameter; and `deleteAppointment` with required parameter
`identifier`. -/
theorem C10_function_declarations :
    chatModelConfig.tools = [functionDeclarations] ∧
    functionDeclarations.map FunctionDeclaration.name =
      ["scheduleAppointment", "getAppointments", "deleteAppointment"] ∧
    functionDeclarations.map FunctionDeclaration.required =
      [["title", "date", "time"], [], ["identifier"]] ∧
    functionDeclarations.map (fun d => d.properties.map ParamProperty.pname) =
      [["title", "date", "time", "description"], ["date"], ["identifier"]] :=
  ⟨rfl, rfl, rfl, rfl⟩

/-! Claim C5. -/

/-- C5: `executeFunction` maps the names scheduleAppointment,
getAppointments and deleteAppointment to the corresponding local
functions, passing the arguments carried by the call, and for every
other name returns the serialized Unknown function error object without
modifying any state. -/
theorem C5_executeFunction_dispatch (insertOk : Bool) (db : DB) (userId : String)
    (args : FnArgs) :
    (executeFunction insertOk db userId { name := "scheduleAppointment", args := args } =
      ((scheduleAppointment insertOk db userId (args.title.getD "")
          (args.date.getD 0) (args.time.getD 0) (args.description.getD "")).1,
       FnResult.scheduled (scheduleAppointment insertOk db userId (args.title.getD "")
          (args.date.getD 0) (args.time.getD 0) (args.description.getD "")).2)) ∧
    (executeFunction insertOk db userId { name := "getAppointments", args := args } =
      ((getAppointments db userId args.date).1,
       FnResult.listed (getAppointments db userId args.date).2)) ∧
    (executeFunction insertOk db userId { name := "deleteAppointment", args := args } =
      ((deleteAppointment db userId (args.identifier.getD "")).1,
       FnResult.deleted (deleteAppointment db userId (args.identifier.getD "")).2)) ∧
    (∀ nm : String, nm ≠ "scheduleAppointment" → nm ≠ "getAppointments" →
      nm ≠ "deleteAppointment" →
      executeFunction insertOk db userId { name := nm, args := args } =
        (db, FnResult.unknownFunction "Unknown function")) := by
  refine ⟨rfl, rfl, rfl, ?_⟩
  intro nm h1 h2 h3
  unfold executeFunction
  split <;> simp_all

/-- Witness for C5 at a concrete unknown name. -/
theorem C5_executeFunction_dispatch_witness :
    executeFunction true emptyDb "default_user" { name := "dropDatabase", args := {} } =
      (emptyDb, FnResult.unknownFunction "Unknown function") :=
  (C5_executeFunction_dispatch true emptyDb "default_user" {}).2.2.2
    "dropDatabase" (by decide) (by decide) (by decide)

/-! Claim C9. -/

/-- C9: the OAuth callback stores the obtained token set under the fixed
id default_user regardless of which Google account completed the
authorization (and touches no other user entry), and the `/chat` and
`/appointments` handlers default their userId to default_user when the
request supplies none. -/
theorem C9_default_user_identity (tokenOk : Bool) (db : DB)
    (account1 account2 : String) (code : Nat) :
    oauth2callback tokenOk db account1 code = oauth2callback tokenOk db account2 code ∧
    (tokenOk = true →
      getUserTokens (oauth2callback tokenOk db account1 code).1 "default_user" = some code) ∧
    (tokenOk = true → ∀ u : String, u ≠ "default_user" →
      getUserTokens (oauth2callback tokenOk db account1 code).1 u = getUserTokens db u) ∧
    chatRequestUserId none = "default_user" ∧
    appointmentsRequestUserId none = "default_user" := by
  refine ⟨rfl, ?_, ?_, rfl, rfl⟩
  · intro h
    subst h
    simp [oauth2callback, saveUserTokens, getUserTokens, lookupTokens_upsertTokens]
  · intro h u hu
    subst h
    simp [oauth2callback, saveUserTokens, getUserTokens, lookupTokens_upsertTokens, hu]

/-- Witness for C9 at a concrete state and code. -/
theorem C9_default_user_identity_witness :
    getUserTokens (oauth2callback true emptyDb "alice" 42).1 "default_user" = some 42 ∧
    getUserTokens (oauth2callback true emptyDb "alice" 42).1 "bob" =
      getUserTokens emptyDb "bob" :=
  ⟨(C9_default_user_identity true emptyDb "alice" "carol" 42).2.1 rfl,
   (C9_default_user_identity true emptyDb "alice" "carol" 42).2.2.1 rfl "bob" (by decide)⟩

/-! Claim C2. -/

/-- C2 counterexample: with no stored Google tokens, an invocation of the
schedule tool persists the appointment but creates no Google Calendar
event, so the tool does not mirror every appointment into the external
calendar. -/
theorem C2_counterexample :
    getUserTokens emptyDb "default_user" = none ∧
    (scheduleAppointment true emptyDb "default_user" "Dentist" 20455 600 "").1.appointments.length = 1 ∧
    (scheduleAppointment true emptyDb "default_user" "Dentist" 20455 600 "").1.gcal = [] := by
  decide

/-- C2 amended: every invocation of the schedule tool persists the
appointment (with `reminded := false`); it mirrors the appointment into
Google Calendar exactly when the user has stored OAuth tokens and the
calendar insert succeeds, and otherwise leaves the external calendar
untouched. -/
theorem C2_amended_schedule (insertOk : Bool) (db : DB) (userId title : String)
    (date time : Nat) (descr : String) :
    (∃ gid : Option Nat,
      (scheduleAppointment insertOk db userId title date time descr).1.appointments =
        db.appointments ++
          [{ _id := db.nextApptId, userId := userId, title := title, date := date,
             time := time, description := descr, reminded := false,
             googleEventId := gid }]) ∧
    (((getUserTokens db userId).isSome ∧ insertOk = true) →
      (scheduleAppointment insertOk db userId title date time descr).1.gcal =
        db.gcal ++ [{ eventId := db.nextEventId, summary := title, details := descr,
                      startMin := date * 1440 + time,
                      endMin := date * 1440 + time + 60 }]) ∧
    (¬((getUserTokens db userId).isSome ∧ insertOk = true) →
      (scheduleAppointment insertOk db userId title date time descr).1.gcal = db.gcal) := by
  cases htok : getUserTokens db userId with
  | none =>
      cases insertOk <;>
        simp [scheduleAppointment, scheduleToGoogleCalendar, htok]
  | some t =>
      cases insertOk with
      | false => simp [scheduleAppointment, scheduleToGoogleCalendar, htok]
      | true => simp [scheduleAppointment, scheduleToGoogleCalendar, htok]

/-- Witness for C2 amended: with tokens stored and a succeeding insert,
the event is mirrored. -/
theorem C2_amended_schedule_witness :
    (scheduleAppointment true tokenDb "default_user" "Dentist" 20455 600 "").1.gcal =
      tokenDb.gcal ++ [{ eventId := 0, summary := "Dentist", details := "",
                         startMin := 20455 * 1440 + 600,
                         endMin := 20455 * 1440 + 600 + 60 }] :=
  (C2_amended_schedule true tokenDb "default_user" "Dentist" 20455 600 "").2.1
    ⟨by decide, rfl⟩

/-! Claim C1. -/

/-- Characterization of the emission set of one cron run: exactly the
stored, unreminded appointments dated the current day whose start lies in
the one-minute window fifteen minutes ahead. -/
theorem scanStep_emits_iff (db : DB) (now : Nat) (a : Appointment) :
    a ∈ (scanStep db now).2 ↔
      (a ∈ db.appointments ∧ a.reminded = false ∧ a.date = isoDate now ∧
        now + 15 ≤ apptStart a ∧ apptStart a < now + 16) := by
  simp only [scanStep, needsReminderQuery, inReminderWindow, List.mem_filter,
    Bool.and_eq_true, beq_iff_eq, decide_eq_true_eq]
  tauto

/-- C1 counterexample: `earlyAppt` (day 1, 00:05) is stored and
unreminded, and its start lies exactly fifteen minutes after the scan
instant 1430 (day 0, 23:50), yet that scan emits nothing: the query
restricts to appointments dated the scan day, and day 1 is not day 0. -/
theorem C1_counterexample :
    earlyAppt ∈ earlyDb.appointments ∧
    earlyAppt.reminded = false ∧
    1430 + 15 ≤ apptStart earlyAppt ∧
    apptStart earlyAppt < 1430 + 16 ∧
    (scanStep earlyDb 1430).2 = [] := by
  decide

/-- C1 amended: each minute scan emits reminders for exactly those stored
appointments that are unreminded, whose stored date equals the scan day,
and whose start lies in the half-open window from now+15 to now+16
minutes; in particular an unreminded appointment starting at least
fifteen minutes into its day is emitted by the scan fifteen minutes
before its start, while an appointment starting in the first fifteen
minutes of a day fails the date filter at that scan and gets no
reminder. -/
theorem C1_amended_scan (db : DB) (now : Nat) :
    (∀ a : Appointment, a ∈ (scanStep db now).2 ↔
      (a ∈ db.appointments ∧ a.reminded = false ∧ a.date = isoDate now ∧
        now + 15 ≤ apptStart a ∧ apptStart a < now + 16)) ∧
    (∀ a : Appointment, a ∈ db.appointments → a.reminded = false →
      15 ≤ a.time → a.time < 1440 →
      a ∈ (scanStep db (apptStart a - 15)).2) := by
  refine ⟨fun a => scanStep_emits_iff db now a, fun a ha hr ht hlt => ?_⟩
  refine (scanStep_emits_iff db (apptStart a - 15) a).mpr ⟨ha, hr, ?_, ?_, ?_⟩
  · unfold isoDate apptStart
    omega
  · unfold apptStart
    omega
  · unfold apptStart
    omega

/-- Witness for C1 amended: the mid-day appointment is emitted by the
scan fifteen minutes before its start. -/
theorem C1_amended_scan_witness :
    middayAppt ∈ (scanStep middayDb (apptStart middayAppt - 15)).2 :=
  (C1_amended_scan middayDb 0).2 middayAppt (by decide) rfl (by decide) (by decide)

/-! Claim C7. -/

/-- C7: `getAppointments` leaves the state unchanged and returns exactly
the stored appointments of the given user - further filtered by the date
when one is supplied - sorted ascending by date and then by time; and the
GET `/appointments` handler (when its calls succeed) returns the same
user-filtered, sorted list together with the Google-connection flag. -/
theorem C7_getAppointments (db : DB) (userId : String) (dateFilter : Option Nat) :
    ((getAppointments db userId dateFilter).1 = db) ∧
    ((getAppointments db userId dateFilter).2.count =
      (getAppointmentsList db userId dateFilter).length) ∧
    ((getAppointments db userId dateFilter).2.appointments =
      (getAppointmentsList db userId dateFilter).map (fun a =>
        { id := a._id, title := a.title, date := a.date, time := a.time,
          description := a.description })) ∧
    (getAppointmentsList db userId dateFilter).Perm
      (db.appointments.filter (matchesQuery userId dateFilter)) ∧
    (∀ a : Appointment, a ∈ getAppointmentsList db userId dateFilter ↔
      (a ∈ db.appointments ∧ a.userId = userId ∧
        ∀ d : Nat, dateFilter = some d → a.date = d)) ∧
    List.Sorted apptKeyLe (getAppointmentsList db userId dateFilter) ∧
    (∀ q : Option String, appointmentsHandler true true db q =
      Except.ok
        { appointments := getAppointmentsList db (appointmentsRequestUserId q) none,
          googleConnected := (getUserTokens db (appointmentsRequestUserId q)).isSome }) := by
  refine ⟨rfl, rfl, rfl, List.perm_insertionSort _ _, ?_, List.sorted_insertionSort _ _,
    fun q => rfl⟩
  intro a
  rw [getAppointmentsList, (List.perm_insertionSort apptKeyLe _).mem_iff, List.mem_filter]
  unfold matchesQuery
  cases dateFilter with
  | none => simp
  | some d => simp [and_assoc]

/-- Witness for C7 at a concrete state. -/
theorem C7_getAppointments_witness :
    middayAppt ∈ getAppointmentsList middayDb "default_user" none :=
  ((C7_getAppointments middayDb "default_user" none).2.2.2.2.1 middayAppt).mpr
    ⟨by decide, rfl, fun d h => nomatch h⟩

/-! Claim C3. -/

/-- Every call of a turn is executed: the collected responses carry the
names of all the calls, in order. -/
theorem execCalls_names (insertOk : Bool) (userId : String) :
    ∀ (calls : List FunctionCall) (db : DB),
      (execCalls insertOk userId db calls).2.map Prod.fst =
        calls.map FunctionCall.name := by
  intro calls
  induction calls with
  | nil => intro db; rfl
  | cons fc rest ih =>
      intro db
      simp [execCalls, ih]

/-- One response is collected per call of the turn. -/
theorem execCalls_length (insertOk : Bool) (userId : String) :
    ∀ (calls : List FunctionCall) (db : DB),
      (execCalls insertOk userId db calls).2.length = calls.length := by
  intro calls
  induction calls with
  | nil => intro db; rfl
  | cons fc rest ih =>
      intro db
      simp [execCalls, ih]

/-- C3 counterexample: on a turn where the model returns two function
calls, both are executed (two appointments are stored) but the single
message sent back to the model wraps only the first function response,
so the second response is never sent back to the model. -/
theorem C3_counterexample :
    twoCallResp.functionCalls.map List.length = some 2 ∧
    (chatLoop true "u" [doneResp] emptyDb twoCallResp).1.appointments.length = 2 ∧
    (chatLoop true "u" [doneResp] emptyDb twoCallResp).2.1 =
      [SentMessage.functionResponseMsg
        [("scheduleAppointment", (executeFunction true emptyDb "u" fcA).2)]] := by
  decide

/-- C3 amended: on every turn whose model response contains function
calls, every returned call is executed via executeFunction, in array
order, but the message sent back to the model wraps only the first
response of the turn; the loop then continues with the model's next
response, and it ends, returning the text, on a response that contains
no function calls. -/
theorem C3_amended_chat_loop (insertOk : Bool) (userId : String) (db : DB) :
    (∀ (text : String) (script : List ModelResponse),
      chatLoop insertOk userId script db { functionCalls := none, text := text } =
        (db, [], some text)) ∧
    (∀ (calls : List FunctionCall) (text : String) (next : ModelResponse)
        (rest : List ModelResponse),
      chatLoop insertOk userId (next :: rest) db
          { functionCalls := some calls, text := text } =
        ((chatLoop insertOk userId rest (execCalls insertOk userId db calls).1 next).1,
         SentMessage.functionResponseMsg
             ((execCalls insertOk userId db calls).2.take 1) ::
           (chatLoop insertOk userId rest (execCalls insertOk userId db calls).1 next).2.1,
         (chatLoop insertOk userId rest (execCalls insertOk userId db calls).1 next).2.2)) ∧
    (∀ calls : List FunctionCall,
      (execCalls insertOk userId db calls).2.map Prod.fst =
        calls.map FunctionCall.name) ∧
    (∀ calls : List FunctionCall,
      (execCalls insertOk userId db calls).2.length = calls.length) := by
  refine ⟨?_, ?_, fun calls => execCalls_names insertOk userId calls db,
    fun calls => execCalls_length insertOk userId calls db⟩
  · intro text script
    conv_lhs => rw [chatLoop]
  · intro calls text next rest
    conv_lhs => rw [chatLoop]

/-! Claim C6. -/

/-- C6 counterexample: a failing document-store call escapes both the GET
`/appointments` handler and the reminder-scan callback as an uncaught
exception, so not every external call sits inside a `try/catch`. -/
theorem C6_counterexample :
    appointmentsHandler false true emptyDb none =
      Except.error "document-store find failed" ∧
    cronHandler false true emptyDb 0 =
      Except.error "document-store find failed" :=
  ⟨rfl, rfl⟩

/-- C6 amended: the `/chat` handler wraps its whole body in `try/catch`
(a body failure becomes the 500 response), the OAuth callback catches the
token-exchange failure (error redirect), and the Google Calendar insert
is caught inside `scheduleToGoogleCalendar` (a failure yields a
success-false value); but the GET `/appointments` handler and the
reminder scan run their document-store calls outside any `try/catch`, so
failures there propagate as exceptions. -/
theorem C6_amended_error_handling (modelOk countOk insertOk findOk tokensOk updateOk tokenOk : Bool)
    (db : DB) (uid : String) (q : Option String) (resp : ModelResponse)
    (script : List ModelResponse) (account : String) (code now : Nat)
    (title : String) (date time : Nat) (descr : String) :
    ((chatBody modelOk countOk insertOk db uid resp script).2.isOk =
      (modelOk && countOk)) ∧
    (∀ e : ExtError,
      (chatBody modelOk countOk insertOk db (chatRequestUserId q) resp script).2 =
          Except.error e →
      (chatHandler modelOk countOk insertOk db q resp script).2 =
        ChatHttpResponse.internalError e) ∧
    (tokenOk = false →
      oauth2callback tokenOk db account code = (db, OAuthRedirect.authFailed)) ∧
    (insertOk = false →
      (scheduleToGoogleCalendar insertOk db uid title date time descr).1 = db ∧
      (scheduleToGoogleCalendar insertOk db uid title date time descr).2.success = false) ∧
    (findOk = false →
      appointmentsHandler findOk tokensOk db q =
        Except.error "document-store find failed") ∧
    (findOk = false →
      cronHandler findOk updateOk db now =
        Except.error "document-store find failed") := by
  refine ⟨?_, ?_, ?_, ?_, ?_, ?_⟩
  · cases modelOk <;> cases countOk <;> simp [chatBody, Except.isOk, Except.toBool]
  · intro e he
    simp only [chatHandler]
    rcases hcb : chatBody modelOk countOk insertOk db (chatRequestUserId q) resp script with ⟨db1, ex⟩
    rw [hcb] at he
    simp only at he
    subst he
    rfl
  · intro h; subst h; rfl
  · intro h
    subst h
    cases htok : getUserTokens db uid <;>
      simp [scheduleToGoogleCalendar, htok]
  · intro h; subst h; rfl
  · intro h; subst h; rfl

/-- Witness for C6 amended at concrete oracles and states. -/
theorem C6_amended_error_handling_witness :
    appointmentsHandler false true emptyDb (some "u") =
      Except.error "document-store find failed" ∧
    cronHandler false true emptyDb 5 = Except.error "document-store find failed" ∧
    oauth2callback false emptyDb "alice" 1 = (emptyDb, OAuthRedirect.authFailed) :=
  ⟨(C6_amended_error_handling false false false false true false false emptyDb "u"
      (some "u") doneResp [] "alice" 1 5 "t" 0 0 "").2.2.2.2.1 rfl,
   (C6_amended_error_handling false false false false true false false emptyDb "u"
      (some "u") doneResp [] "alice" 1 5 "t" 0 0 "").2.2.2.2.2 rfl,
   (C6_amended_error_handling false false false false true false false emptyDb "u"
      (some "u") doneResp [] "alice" 1 5 "t" 0 0 "").2.2.1 rfl⟩

/-! Claim C4. -/

/-- C4 counterexample: the identifier meet is not a valid ObjectId and
differs from the stored title Team Meeting even case-insensitively, yet
`deleteAppointment` reports success and removes the appointment: the
title lookup is an unanchored case-insensitive substring (regex) match,
not a case-insensitive title equality. -/
theorem C4_counterexample :
    parseObjectId "meet" = none ∧
    lowerList "meet" ≠ lowerList "Team Meeting" ∧
    (deleteAppointment meetingDb "u" "meet").2.success = true ∧
    (deleteAppointment meetingDb "u" "meet").1.appointments = [] := by
  decide

/-- C4 amended: `deleteAppointment` looks the appointment up first by
parsed ObjectId with matching userId, then - if none is found that way -
by an unanchored case-insensitive substring match of the identifier
against the title (not title equality); when a match exists, the first
matching appointment is removed from the store (exactly one document)
and a success-true result naming it is returned; when no appointment
matches either way, the result has success false and the state is
unchanged. -/
theorem C4_amended_delete (db : DB) (userId identifier : String) :
    (findByIdOrTitle db userId identifier = none →
      ((deleteAppointment db userId identifier).2.success = false ∧
       (deleteAppointment db userId identifier).1 = db)) ∧
    (findByIdOrTitle db userId identifier = none ↔
      ∀ a ∈ db.appointments, a.userId = userId →
        (∀ oid : Nat, parseObjectId identifier = some oid → a._id ≠ oid) ∧
        regexTest identifier a.title = false) ∧
    (∀ a : Appointment, findByIdOrTitle db userId identifier = some a →
      (a ∈ db.appointments ∧ a.userId = userId ∧
       ((∃ oid : Nat, parseObjectId identifier = some oid ∧ a._id = oid) ∨
         regexTest identifier a.title = true) ∧
       (deleteAppointment db userId identifier).2.success = true ∧
       (deleteAppointment db userId identifier).2.appointment =
         some (a._id, a.title) ∧
       (deleteAppointment db userId identifier).1.appointments =
         db.appointments.eraseP (fun b => b._id == a._id) ∧
       (deleteAppointment db userId identifier).1.appointments.length + 1 =
         db.appointments.length)) := by
  refine ⟨?_, ?_, ?_⟩
  · intro h
    refine ⟨?_, ?_⟩ <;> simp [deleteAppointment, h]
  · unfold findByIdOrTitle
    cases hp : parseObjectId identifier with
    | none =>
        dsimp only
        rw [List.find?_eq_none]
        constructor
        · intro h a ha hu
          refine ⟨(fun oid hoid => nomatch hoid), ?_⟩
          have h2 := h a ha
          simp only [Bool.and_eq_true, beq_iff_eq, not_and] at h2
          have h3 := h2 hu
          simpa using h3
        · intro h a ha
          simp only [Bool.and_eq_true, beq_iff_eq, not_and]
          intro hu hr
          rw [(h a ha hu).2] at hr
          exact Bool.false_ne_true hr
    | some oid =>
        dsimp only
        cases hf : db.appointments.find? (fun a => a.userId == userId && a._id == oid) with
        | some a =>
            dsimp only
            constructor
            · intro h
              exact nomatch h
            · intro h
              exfalso
              have hmem := List.mem_of_find?_eq_some hf
              have hpred := List.find?_some hf
              simp only [Bool.and_eq_true, beq_iff_eq] at hpred
              exact (h a hmem hpred.1).1 oid rfl hpred.2
        | none =>
            dsimp only
            rw [List.find?_eq_none]
            have hid : ∀ a ∈ db.appointments, a.userId = userId → a._id ≠ oid := by
              intro a ha hu hoid
              have h2 := List.find?_eq_none.mp hf a ha
              simp [hu, hoid] at h2
            constructor
            · intro h a ha hu
              refine ⟨fun oid2 hoid2 => ?_, ?_⟩
              · have hoe : oid = oid2 := by injection hoid2
                subst hoe
                exact hid a ha hu
              · have h2 := h a ha
                simp only [Bool.and_eq_true, beq_iff_eq, not_and] at h2
                have h3 := h2 hu
                simpa using h3
            · intro h a ha
              simp only [Bool.and_eq_true, beq_iff_eq, not_and]
              intro hu hr
              rw [(h a ha hu).2] at hr
              exact Bool.false_ne_true hr
  · intro a ha
    have hsrc : a ∈ db.appointments ∧ a.userId = userId ∧
        ((∃ oid : Nat, parseObjectId identifier = some oid ∧ a._id = oid) ∨
          regexTest identifier a.title = true) := by
      unfold findByIdOrTitle at ha
      cases hp : parseObjectId identifier with
      | none =>
          rw [hp] at ha
          dsimp only at ha
          have hmem := List.mem_of_find?_eq_some ha
          have hpred := List.find?_some ha
          simp only [Bool.and_eq_true, beq_iff_eq] at hpred
          exact ⟨hmem, hpred.1, Or.inr hpred.2⟩
      | some oid =>
          rw [hp] at ha
          dsimp only at ha
          cases hf : db.appointments.find? (fun x => x.userId == userId && x._id == oid) with
          | some b =>
              rw [hf] at ha
              simp only [Option.some.injEq] at ha
              subst ha
              have hmem := List.mem_of_find?_eq_some hf
              have hpred := List.find?_some hf
              simp only [Bool.and_eq_true, beq_iff_eq] at hpred
              exact ⟨hmem, hpred.1, Or.inl ⟨oid, rfl, hpred.2⟩⟩
          | none =>
              rw [hf] at ha
              dsimp only at ha
              have hmem := List.mem_of_find?_eq_some ha
              have hpred := List.find?_some ha
              simp only [Bool.and_eq_true, beq_iff_eq] at hpred
              exact ⟨hmem, hpred.1, Or.inr hpred.2⟩
    have happts : (deleteAppointment db userId identifier).1.appointments =
        db.appointments.eraseP (fun b => b._id == a._id) := by
      simp only [deleteAppointment, ha]
      cases a.googleEventId <;> cases getUserTokens db userId <;> rfl
    refine ⟨hsrc.1, hsrc.2.1, hsrc.2.2, ?_, ?_, happts, ?_⟩
    · simp [deleteAppointment, ha]
    · simp [deleteAppointment, ha]
    · rw [happts, List.length_eraseP_of_mem hsrc.1 (p := fun b => b._id == a._id) (by simp)]
      have hpos : 0 < db.appointments.length := List.length_pos.mpr (by
        intro hnil
        rw [hnil] at hsrc
        exact (List.not_mem_nil a) hsrc.1)
      omega

/-- Witness for C4 amended at an identifier matching nothing. -/
theorem C4_amended_delete_witness :
    (deleteAppointment meetingDb "u" "zzz").2.success = false ∧
    (deleteAppointment meetingDb "u" "zzz").1 = meetingDb :=
  (C4_amended_delete meetingDb "u" "zzz").1 (by decide)

/-! Claim C8. -/

/-- The update loop of one cron run acts pointwise: a document is marked
reminded exactly when its id is among the ids updated by the loop. -/
theorem foldl_markReminded (l : List Appointment) (appts : List Appointment) :
    l.foldl (fun acc x => markReminded acc x._id) appts =
      appts.map (fun b =>
        if b._id ∈ l.map (fun x => x._id) then { b with reminded := true } else b) := by
  induction l generalizing appts with
  | nil => simp
  | cons x l ih =>
      rw [List.foldl_cons, ih, markReminded, List.map_map]
      refine List.map_congr_left ?_
      intro b _
      by_cases hb : b._id = x._id
      · simp [Function.comp, hb]
      · simp [Function.comp, hb]

/-- After one cron run the collection is the old collection with the
reminded flag set on exactly the emitted ids. -/
theorem scanStep_fst_appointments (db : DB) (now : Nat) :
    (scanStep db now).1.appointments =
      db.appointments.map (fun b =>
        if b._id ∈ (scanStep db now).2.map (fun x => x._id) then
          { b with reminded := true } else b) := by
  unfold scanStep
  dsimp only
  exact foldl_markReminded _ _

/-- A cron run changes no document ids. -/
theorem scanStep_ids (db : DB) (now : Nat) :
    (scanStep db now).1.appointments.map (fun a => a._id) =
      db.appointments.map (fun a => a._id) := by
  rw [scanStep_fst_appointments, List.map_map]
  refine List.map_congr_left ?_
  intro b _
  by_cases hb : b._id ∈ (scanStep db now).2.map (fun x => x._id) <;>
    simp [Function.comp, hb]

/-- Every document carrying id `i` has its reminded flag set. -/
def allRemindedWithId (db : DB) (i : Nat) : Prop :=
  ∀ a ∈ db.appointments, a._id = i → a.reminded = true

/-- Saturation of the reminded flag: after a cron run, an id is fully
reminded if it was already, or if the run just emitted it. -/
theorem allReminded_after_scan (db : DB) (now : Nat) (i : Nat) :
    (allRemindedWithId db i ∨ i ∈ (scanStep db now).2.map (fun x => x._id)) →
    allRemindedWithId (scanStep db now).1 i := by
  intro h a ha hai
  rw [scanStep_fst_appointments] at ha
  obtain ⟨b, hb, rfl⟩ := List.mem_map.mp ha
  by_cases hbid : b._id ∈ (scanStep db now).2.map (fun x => x._id)
  · simp [hbid]
  · rw [if_neg hbid] at hai ⊢
    rcases h with hall | hi
    · exact hall b hb hai
    · exact absurd (hai ▸ hi) hbid

/-- An id all of whose documents are already reminded is never emitted. -/
theorem emitted_not_allReminded (db : DB) (now : Nat) (i : Nat) :
    i ∈ (scanStep db now).2.map (fun x => x._id) → ¬allRemindedWithId db i := by
  intro hi hall
  obtain ⟨a, ha, rfl⟩ := List.mem_map.mp hi
  have h2 := (scanStep_emits_iff db now a).mp ha
  have h3 := hall a h2.1 rfl
  rw [h2.2.1] at h3
  exact Bool.false_ne_true h3

/-- A fully reminded id is emitted by no later scan. -/
theorem countEmitted_zero_of_allReminded (i : Nat) :
    ∀ (ts : List Nat) (db : DB), allRemindedWithId db i →
      countEmitted i (runScans db ts) = 0 := by
  intro ts
  induction ts with
  | nil => intro db _; rfl
  | cons t ts ih =>
      intro db h
      have hstep : runScans db (t :: ts) =
          (scanStep db t).2.map (fun a => a._id) :: runScans (scanStep db t).1 ts := rfl
      rw [hstep]
      simp only [countEmitted, List.map_cons, List.sum_cons]
      have h0 : ((scanStep db t).2.map (fun a => a._id)).count i = 0 :=
        List.count_eq_zero.mpr (fun hm => emitted_not_allReminded db t i hm h)
      have h1 := ih (scanStep db t).1 (allReminded_after_scan db t i (Or.inl h))
      simp only [countEmitted] at h1
      omega

/-- The emitted snapshot of a run is drawn from the collection. -/
theorem scanStep_snd_sublist (db : DB) (now : Nat) :
    (scanStep db now).2.Sublist db.appointments := by
  unfold scanStep needsReminderQuery
  dsimp only
  exact (List.filter_sublist _).trans (List.filter_sublist _)

/-- C8: each appointment triggers at most one reminder ever: every
appointment is created with reminded false; when a scan emits a reminder
for an appointment, afterwards every document with that id has reminded
true; appointments with reminded true are excluded from every scan; and
across any sequence of scans an id with no duplicate documents is
emitted at most once. -/
theorem C8_at_most_one_reminder :
    (∀ (insertOk : Bool) (db : DB) (userId title : String) (date time : Nat)
        (descr : String),
      (scheduleAppointment insertOk db userId title date time descr).1.appointments.map
          (fun a => a.reminded) =
        db.appointments.map (fun a => a.reminded) ++ [false]) ∧
    (∀ (db : DB) (now : Nat) (a : Appointment), a ∈ (scanStep db now).2 →
      allRemindedWithId (scanStep db now).1 a._id) ∧
    (∀ (db : DB) (now : Nat) (a : Appointment), a ∈ db.appointments →
      a.reminded = true → a ∉ (scanStep db now).2) ∧
    (∀ (db : DB) (i : Nat) (ts : List Nat),
      (db.appointments.map (fun a => a._id)).Nodup →
      countEmitted i (runScans db ts) ≤ 1) := by
  refine ⟨?_, ?_, ?_, ?_⟩
  · intro insertOk db uid title date time descr
    cases htok : getUserTokens db uid <;> cases insertOk <;>
      simp [scheduleAppointment, scheduleToGoogleCalendar, htok]
  · intro db now a ha
    exact allReminded_after_scan db now a._id
      (Or.inr (List.mem_map_of_mem (fun x => x._id) ha))
  · intro db now a _ hr hin
    have h2 := (scanStep_emits_iff db now a).mp hin
    rw [hr] at h2
    exact absurd h2.2.1 (by simp)
  · have main : ∀ (ts : List Nat) (db : DB),
        (db.appointments.map (fun a => a._id)).Nodup →
        ∀ i : Nat, countEmitted i (runScans db ts) ≤ 1 := by
      intro ts
      induction ts with
      | nil => intro db _ i; exact Nat.zero_le 1
      | cons t ts ih =>
          intro db hnd i
          have hstep : runScans db (t :: ts) =
              (scanStep db t).2.map (fun a => a._id) :: runScans (scanStep db t).1 ts := rfl
          rw [hstep]
          simp only [countEmitted, List.map_cons, List.sum_cons]
          by_cases hi : i ∈ (scanStep db t).2.map (fun x => x._id)
          · have hsub : ((scanStep db t).2.map (fun x => x._id)).Sublist
                (db.appointments.map (fun x => x._id)) :=
              (scanStep_snd_sublist db t).map _
            have hnd2 : ((scanStep db t).2.map (fun x => x._id)).Nodup :=
              List.Nodup.sublist hsub hnd
            have hcnt : ((scanStep db t).2.map (fun x => x._id)).count i ≤ 1 :=
              List.nodup_iff_count_le_one.mp hnd2 i
            have htail : countEmitted i (runScans (scanStep db t).1 ts) = 0 :=
              countEmitted_zero_of_allReminded i ts (scanStep db t).1
                (allReminded_after_scan db t i (Or.inr hi))
            simp only [countEmitted] at htail
            omega
          · have hcnt : ((scanStep db t).2.map (fun x => x._id)).count i = 0 :=
              List.count_eq_zero.mpr hi
            have hnd1 : ((scanStep db t).1.appointments.map (fun a => a._id)).Nodup := by
              rw [scanStep_ids]; exact hnd
            have htail := ih (scanStep db t).1 hnd1 i
            simp only [countEmitted] at htail
            omega
    intro db i ts hnd
    exact main ts db hnd i

/-- Witness for C8 at a concrete state: two successive scans around the
reminder moment emit at most one reminder for the appointment. -/
theorem C8_at_most_one_reminder_witness :
    countEmitted 3 (runScans middayDb [585, 586]) ≤ 1 :=
  C8_at_most_one_reminder.2.2.2 middayDb 3 [585, 586] (by decide)

end CalendarAssistant
